import Mathlib

/-!
Verification development for the `cft-tcp` user-space TCP engine
(`src/tcp.rs`, `src/main.rs`).

The embedding below translates the connection state machine of
`src/tcp.rs` into Lean: 32-bit sequence numbers become `Nat` values
reduced modulo `2^32` exactly where the Rust `Wrapping<u32>` arithmetic
wraps, the `io::Result` values become `Except IoError`, and the
side-effecting transmission through the TUN interface (`nic.send`)
becomes the explicit list of transmitted byte strings returned from each
operation.  The serialization helpers of the external `etherparse`
library (`TcpHeader::write`, `Ipv4Header::write`,
`TcpHeader::calc_checksum_ipv4`) are modelled byte-for-byte after the
standard IPv4/TCP wire formats that library implements.  The scratch
`Cursor<[u8; 1500]>` is modelled by the byte list actually written on a
call, since every call rewinds the cursor to position 0 and transmits
exactly the freshly written range.
-/

/-- The modulus of 32-bit sequence-number arithmetic. -/
def u32Mod : Nat := 4294967296

/-- Wrapping 32-bit addition, the semantics of `Wrapping<u32> + Wrapping<u32>`. -/
def wadd (a b : Nat) : Nat := (a + b) % u32Mod

/-- Wrapping 32-bit subtraction, the semantics of `Wrapping<u32> - Wrapping<u32>`. -/
def wsub (a b : Nat) : Nat := (a + (u32Mod - b % u32Mod)) % u32Mod

/-- The circular comparator `is_between` of `src/tcp.rs` (lines 287-294).
`Wrapping<u32>` orders by the underlying `u32`, so the Rust comparisons
translate to plain `Nat` comparisons. -/
def is_between (start end' : Nat) (val : Nat) : Bool :=
  if start < end' then
    decide (val ≥ start) && decide (val ≤ end')
  else
    decide (val ≥ start) || decide (val ≤ end')

/-- The `State` enumeration of `src/tcp.rs` (lines 7-19). -/
inductive State where
  | Closed
  | Listen
  | SynRcvd
  | SynSent
  | Established
  | FinWait1
  | FinWait2
  | Closing
  | TimeWait
  | CloseWait
  | LastAck
deriving DecidableEq, Repr

/-- `State::is_sync` of `src/tcp.rs` (lines 21-28): `false` exactly on
`SynRcvd`, `SynSent` and `Listen`. -/
def State.is_sync : State → Bool
  | State.SynRcvd | State.SynSent | State.Listen => false
  | _ => true

/-- Big-endian serialization of a 16-bit value. -/
def be16 (n : Nat) : List Nat := [n / 256 % 256, n % 256]

/-- Big-endian serialization of a 32-bit value. -/
def be32 (n : Nat) : List Nat :=
  [n / 16777216 % 256, n / 65536 % 256, n / 256 % 256, n % 256]

/-- Contribution of a flag bit to a serialized flags byte. -/
def boolBit (b : Bool) (v : Nat) : Nat := if b then v else 0

/-- Sum of the big-endian 16-bit words of a byte string (odd lengths are
padded with a zero byte), the accumulation step of the Internet checksum. -/
def sum16 : List Nat → Nat
  | [] => 0
  | [a] => a * 256
  | a :: b :: rest => a * 256 + b + sum16 rest

/-- End-around carry folding for the Internet checksum, with explicit fuel.
Each step strictly shrinks the argument, so fuel equal to the starting value
always suffices. -/
def foldCarryAux : Nat → Nat → Nat
  | 0, s => s
  | fuel + 1, s => if s < 65536 then s else foldCarryAux fuel (s % 65536 + s / 65536)

/-- Fold the carries of a checksum accumulator until it fits in 16 bits. -/
def foldCarry (s : Nat) : Nat := foldCarryAux s s

/-- The Internet ones-complement checksum of a byte string. -/
def onesComplement (bytes : List Nat) : Nat := 65535 - foldCarry (sum16 bytes)

/-- Model of `etherparse::TcpHeader`: the fields the program reads or
writes.  The reference header never carries options, so the data offset is
the constant 5 and the serialized header is 20 bytes. -/
structure TcpHeader where
  source_port : Nat
  destination_port : Nat
  sequence_number : Nat
  acknowledgment_number : Nat
  ns : Bool
  cwr : Bool
  ece : Bool
  urg : Bool
  ack : Bool
  psh : Bool
  rst : Bool
  syn : Bool
  fin : Bool
  window_size : Nat
  checksum : Nat
  urgent_pointer : Nat
deriving DecidableEq, Repr

/-- `etherparse::TcpHeader::new(source, destination, sequence_number,
window_size)`: every flag clear, every other field zero. -/
def TcpHeader.new (source destination seq wnd : Nat) : TcpHeader :=
  { source_port := source
    destination_port := destination
    sequence_number := seq
    acknowledgment_number := 0
    ns := false, cwr := false, ece := false, urg := false, ack := false
    psh := false, rst := false, syn := false, fin := false
    window_size := wnd
    checksum := 0
    urgent_pointer := 0 }

/-- `TcpHeader::header_len` for an option-free header: 20 bytes. -/
def TcpHeader.header_len (_ : TcpHeader) : Nat := 20

/-- `TcpHeader::write`: the 20-byte option-free TCP header on the wire
(RFC793 layout, as etherparse serializes it). -/
def TcpHeader.write (h : TcpHeader) : List Nat :=
  be16 h.source_port ++ be16 h.destination_port ++
  be32 h.sequence_number ++ be32 h.acknowledgment_number ++
  [80 + boolBit h.ns 1,
   boolBit h.cwr 128 + boolBit h.ece 64 + boolBit h.urg 32 + boolBit h.ack 16 +
     boolBit h.psh 8 + boolBit h.rst 4 + boolBit h.syn 2 + boolBit h.fin 1] ++
  be16 h.window_size ++ be16 h.checksum ++ be16 h.urgent_pointer

/-- Model of `etherparse::Ipv4Header`: the fields the program sets.  The
reference constructs option-free headers only, so the header length is the
constant 20. -/
structure Ipv4Header where
  payload_len : Nat
  time_to_live : Nat
  protocol : Nat
  source : List Nat
  destination : List Nat
deriving DecidableEq, Repr

/-- `etherparse::Ipv4Header::new(payload_len, time_to_live, protocol,
source, destination)`. -/
def Ipv4Header.new (payload_len ttl protocol : Nat)
    (source destination : List Nat) : Ipv4Header :=
  { payload_len := payload_len, time_to_live := ttl, protocol := protocol
    source := source, destination := destination }

/-- `Ipv4Header::set_payload_len` (the in-range case the program relies on). -/
def Ipv4Header.set_payload_len (h : Ipv4Header) (n : Nat) : Ipv4Header :=
  { h with payload_len := n }

/-- The 20 bytes of an option-free IPv4 header before the header checksum
is filled in (version/IHL `0x45`, zero TOS, total length, zero
identification, don't-fragment flag, TTL, protocol, given checksum,
addresses), following etherparse's serialization. -/
def Ipv4Header.writeWith (h : Ipv4Header) (chk : Nat) : List Nat :=
  [69, 0] ++ be16 (20 + h.payload_len) ++ be16 0 ++ [64, 0] ++
  [h.time_to_live, h.protocol] ++ be16 chk ++ h.source ++ h.destination

/-- `Ipv4Header::write`: serialize with the computed IPv4 header checksum. -/
def Ipv4Header.write (h : Ipv4Header) : List Nat :=
  h.writeWith (onesComplement (h.writeWith 0))

/-- The TCP pseudo-header of the checksum computation: source and
destination address, a zero byte, the protocol number, and the TCP
segment length. -/
def tcpPseudo (ip : Ipv4Header) (tcpLen : Nat) : List Nat :=
  ip.source ++ ip.destination ++ [0, ip.protocol] ++ be16 tcpLen

/-- `TcpHeader::calc_checksum_ipv4(ip, payload)`: the ones-complement
checksum over the pseudo-header, the TCP header with a zero checksum
field, and the given payload.  The TCP length of the pseudo-header is the
header length plus the length of the payload argument. -/
def TcpHeader.calc_checksum_ipv4 (h : TcpHeader) (ip : Ipv4Header)
    (payload : List Nat) : Nat :=
  onesComplement
    (tcpPseudo ip (h.header_len + payload.length) ++
      TcpHeader.write { h with checksum := 0 } ++ payload)

/-- The `SendSequence` space of `src/tcp.rs` (lines 61-69). -/
structure SendSequence where
  una : Nat
  nxt : Nat
  wnd : Nat
  up : Bool
  wl1 : Nat
  wl2 : Nat
  iss : Nat
deriving DecidableEq, Repr

/-- The `ReceiveSequence` space of `src/tcp.rs` (lines 89-94). -/
structure ReceiveSequence where
  nxt : Nat
  wnd : Nat
  up : Bool
  irs : Nat
deriving DecidableEq, Repr

/-- The `Connection` of `src/tcp.rs` (lines 30-37), without the scratch
cursor: every call into the codec rewinds the cursor to position 0 and
transmits exactly the range written by that call, so the buffer state
carries no information between calls and the bytes of each transmission
are returned explicitly instead. -/
structure Connection where
  state : State
  tx : SendSequence
  rx : ReceiveSequence
  ip : Ipv4Header
  tcp : TcpHeader
deriving DecidableEq, Repr

/-- The fields the program reads from an inbound `etherparse::TcpHeaderSlice`. -/
structure TcpHeaderSlice where
  source_port : Nat
  destination_port : Nat
  sequence_number : Nat
  acknowledgment_number : Nat
  window_size : Nat
  syn : Bool
  ack : Bool
deriving DecidableEq, Repr

/-- The fields the program reads from an inbound `etherparse::Ipv4HeaderSlice`:
the source and destination address octets. -/
structure Ipv4HeaderSlice where
  source_addr : List Nat
  destination_addr : List Nat
deriving DecidableEq, Repr

/-- The error kinds of `std::io::Error` the state machine constructs. -/
inductive ErrorKind where
  | invalidInput
  | connectionReset
deriving DecidableEq, Repr

/-- Model of the `std::io::Error` values built in `src/tcp.rs`. -/
structure IoError where
  kind : ErrorKind
  msg : String
deriving DecidableEq, Repr

/-- Whether an `io::Result` is `Ok`. -/
def isOk : Except IoError Unit → Bool
  | Except.ok _ => true
  | Except.error _ => false

/-- The result of `Connection::send` (lines 145-175): the updated
connection, the byte string handed to `nic.send`, and the `Ok` return
value (`payload.len()`). -/
structure SendResult where
  conn : Connection
  transmitted : List Nat
  ret : Nat
deriving DecidableEq, Repr

/-- `Connection::send` of `src/tcp.rs` (lines 145-175).  It stamps
`tx.nxt` and `rx.nxt` into the header template, sets the IPv4 payload
length to the TCP header length plus the payload length, computes the TCP
checksum with an empty payload argument (`calc_checksum_ipv4(&ip, &[])`),
writes the IPv4 header and then the TCP header into the rewound scratch
buffer (the payload itself is never written), advances `tx.nxt` by the
payload length plus one for a set SYN flag plus one for a set FIN flag,
and transmits exactly the written byte range. -/
def Connection.send (c : Connection) (payload : List Nat) : SendResult :=
  let tcp0 := { c.tcp with
    sequence_number := c.tx.nxt
    acknowledgment_number := c.rx.nxt }
  let ip := c.ip.set_payload_len (tcp0.header_len + payload.length)
  let checksum := tcp0.calc_checksum_ipv4 ip []
  let tcp := { tcp0 with checksum := checksum }
  let written := ip.write ++ tcp.write
  let nxt := wadd c.tx.nxt payload.length
  let nxt := if tcp.syn then wadd nxt 1 else nxt
  let nxt := if tcp.fin then wadd nxt 1 else nxt
  { conn := { c with tcp := tcp, ip := ip, tx := { c.tx with nxt := nxt } }
    transmitted := written
    ret := payload.length }

/-- `Connection::send_rst` of `src/tcp.rs` (lines 177-181): set the RST
flag on the header template and send an empty payload. -/
def Connection.send_rst (c : Connection) : SendResult :=
  Connection.send { c with tcp := { c.tcp with rst := true } } []

/-- `Connection::accept` of `src/tcp.rs` (lines 97-143).  `None` models
`Ok(None)` for a first segment without SYN; otherwise the new connection
and the transmitted SYN+ACK bytes are returned. -/
def Connection.accept (ip_hdr : Ipv4HeaderSlice) (tcp_hdr : TcpHeaderSlice) :
    Option (Connection × List Nat) :=
  if !tcp_hdr.syn then none
  else
    let iss := 0
    let wnd := tcp_hdr.window_size
    let tcp := TcpHeader.new tcp_hdr.destination_port tcp_hdr.source_port iss wnd
    let ip := Ipv4Header.new tcp.header_len 64 6
      ip_hdr.destination_addr ip_hdr.source_addr
    let c : Connection :=
      { state := State.SynRcvd
        tx := { una := iss, nxt := iss + 1, wnd := tcp_hdr.window_size
                up := false, wl1 := 0, wl2 := 0, iss := iss }
        rx := { nxt := wadd tcp_hdr.sequence_number 1
                wnd := tcp_hdr.window_size
                up := false, irs := tcp_hdr.sequence_number }
        ip := ip
        tcp := tcp }
    let c := { c with tcp := { c.tcp with syn := true, ack := true } }
    let r := c.send []
    some (r.conn, r.transmitted)

/-- `Connection::check_acceptable_ack` of `src/tcp.rs` (lines 234-243):
accept exactly when `is_between(tx.una + 1, tx.nxt, ackn)`. -/
def Connection.check_acceptable_ack (c : Connection) (ackn : Nat) :
    Except IoError Unit :=
  if is_between (wadd c.tx.una 1) c.tx.nxt ackn then
    Except.ok ()
  else
    Except.error ⟨ErrorKind.invalidInput, "ackn is out of range"⟩

/-- `Connection::check_valid_segment` of `src/tcp.rs` (lines 259-284).
The two zero-window special cases test the window field of the inbound
segment (`tcp_hdr.window_size()`); a zero-length zero-window segment whose
sequence number equals `rx.nxt` falls through to the final range check,
which compares against the local receive window `rx.wnd`. -/
def Connection.check_valid_segment (c : Connection) (tcp_hdr : TcpHeaderSlice)
    (slen : Nat) : Except IoError Unit :=
  let seqn := tcp_hdr.sequence_number
  if slen = 0 ∧ tcp_hdr.window_size = 0 ∧ seqn ≠ c.rx.nxt then
    Except.error ⟨ErrorKind.invalidInput,
      "seg.seq should equals rcv.nxt if  seg.len = 0 and seg.wnd = 0"⟩
  else if slen > 0 ∧ tcp_hdr.window_size = 0 then
    Except.error ⟨ErrorKind.invalidInput,
      "seg.wnd should not be 0 if seg.len > 0"⟩
  else if is_between c.rx.nxt (wsub (wadd c.rx.nxt c.rx.wnd) 1) seqn then
    Except.ok ()
  else
    Except.error ⟨ErrorKind.invalidInput, "seqn is out of range"⟩

/-- The ways `Connection::on_packet` can finish: a returned `Ok(n)`, the
returned `Err` of kind `ConnectionReset` ("must get an ack"), or the
divergence of a `todo!()` branch, which panics instead of returning. -/
inductive Outcome where
  | ok (n : Nat)
  | errConnReset
  | todoDiverge
deriving DecidableEq, Repr

/-- Whether an `Outcome` is an actual return value (a `todo!()` panic is not). -/
def Outcome.isReturn : Outcome → Bool
  | Outcome.todoDiverge => false
  | _ => true

/-- The observable result of one `Connection::on_packet` call: the
connection afterwards, every byte string transmitted during the call, and
how the call finished. -/
structure OnPacketResult where
  conn : Connection
  sent : List (List Nat)
  out : Outcome
deriving DecidableEq, Repr

/-- `Connection::on_packet` of `src/tcp.rs` (lines 183-226).  The two
guards run first; on a guard failure a RST is sent when the state is not
synchronized (`!self.state.is_sync()`) and the call returns `Ok(0)`
either way.  After the guards, `Closed` and `Listen` return `Ok(0)`,
`SynRcvd` demands the ACK flag (a missing flag is the `ConnectionReset`
error) and moves to `Established`, and every other state hits `todo!()`. -/
def Connection.on_packet (c : Connection) (tcp_hdr : TcpHeaderSlice)
    (data : List Nat) : OnPacketResult :=
  match c.check_acceptable_ack tcp_hdr.acknowledgment_number with
  | Except.error _ =>
    if !c.state.is_sync then
      let r := c.send_rst
      { conn := r.conn, sent := [r.transmitted], out := Outcome.ok 0 }
    else
      { conn := c, sent := [], out := Outcome.ok 0 }
  | Except.ok _ =>
    match c.check_valid_segment tcp_hdr data.length with
    | Except.error _ =>
      if !c.state.is_sync then
        let r := c.send_rst
        { conn := r.conn, sent := [r.transmitted], out := Outcome.ok 0 }
      else
        { conn := c, sent := [], out := Outcome.ok 0 }
    | Except.ok _ =>
      match c.state with
      | State.Closed => { conn := c, sent := [], out := Outcome.ok 0 }
      | State.Listen => { conn := c, sent := [], out := Outcome.ok 0 }
      | State.SynRcvd =>
        if !tcp_hdr.ack then
          { conn := c, sent := [], out := Outcome.errConnReset }
        else
          { conn := { c with state := State.Established }, sent := []
            out := Outcome.ok 0 }
      | _ => { conn := c, sent := [], out := Outcome.todoDiverge }

/-- One externally triggerable mutation of a connection, for stating
invariants over arbitrary operation sequences. -/
inductive Op where
  | opSend (payload : List Nat)
  | opSendRst
  | opOnPacket (hdr : TcpHeaderSlice) (data : List Nat)

/-- Run one operation and keep the resulting connection. -/
def applyOp (c : Connection) : Op → Connection
  | Op.opSend p => (c.send p).conn
  | Op.opSendRst => c.send_rst.conn
  | Op.opOnPacket hdr data => (c.on_packet hdr data).conn

/-- Run a sequence of operations left to right. -/
def applyOps (c : Connection) (ops : List Op) : Connection :=
  ops.foldl applyOp c

/-- A placeholder connection used only as the `none` fallback of sample
projections below; `Connection.accept` is shown to return `some` there. -/
def zeroConn : Connection :=
  { state := State.Closed
    tx := { una := 0, nxt := 0, wnd := 0, up := false, wl1 := 0, wl2 := 0, iss := 0 }
    rx := { nxt := 0, wnd := 0, up := false, irs := 0 }
    ip := Ipv4Header.new 20 64 6 [0, 0, 0, 0] [0, 0, 0, 0]
    tcp := TcpHeader.new 0 0 0 0 }

/-- The decoded IPv4 header of the sample inbound SYN: peer 10.0.0.1,
local host 10.0.0.2. -/
def sampleIp : Ipv4HeaderSlice :=
  { source_addr := [10, 0, 0, 1], destination_addr := [10, 0, 0, 2] }

/-- The sample inbound `SYN(seq=1000, win=4096)` of the handshake test. -/
def sampleSyn : TcpHeaderSlice :=
  { source_port := 12345, destination_port := 80, sequence_number := 1000
    acknowledgment_number := 0, window_size := 4096, syn := true, ack := false }

/-- The connection and SYN+ACK reply produced by `accept` on the sample SYN. -/
def sampleHandshake : Connection × List Nat :=
  match Connection.accept sampleIp sampleSyn with
  | some p => p
  | none => (zeroConn, [])

/-- The connection returned by `accept` for the sample SYN. -/
def sampleConn : Connection := sampleHandshake.1

/-- The SYN+ACK bytes transmitted by `accept` for the sample SYN. -/
def sampleReply : List Nat := sampleHandshake.2

/-- The handshake-completing `ACK(ack=iss+1)` segment fed to the sample
connection (`seq = rx.nxt = 1001`, window 4096). -/
def sampleAckSeg : TcpHeaderSlice :=
  { source_port := 12345, destination_port := 80, sequence_number := 1001
    acknowledgment_number := 1, window_size := 4096, syn := false, ack := true }

/-- The outbound header template of the hand-built sample connections. -/
def baseTcp : TcpHeader := TcpHeader.new 80 12345 0 100

/-- The outbound IPv4 template of the hand-built sample connections. -/
def baseIp : Ipv4Header := Ipv4Header.new 20 64 6 [10, 0, 0, 2] [10, 0, 0, 1]

/-- A synchronized sample connection: `Established`, `una = 5`, `nxt = 10`,
`rx.nxt = 1000`, `rx.wnd = 100`. -/
def estConn : Connection :=
  { state := State.Established
    tx := { una := 5, nxt := 10, wnd := 100, up := false, wl1 := 0, wl2 := 0, iss := 0 }
    rx := { nxt := 1000, wnd := 100, up := false, irs := 0 }
    ip := baseIp
    tcp := baseTcp }

/-- The unsynchronized twin of `estConn`: identical sequence spaces in
state `SynRcvd`. -/
def synRcvdConn : Connection := { estConn with state := State.SynRcvd }

/-- A segment whose acknowledgment number 50 fails the acceptable-ACK
test of `estConn`/`synRcvdConn` (`una = 5`, `nxt = 10`). -/
def badAckSeg : TcpHeaderSlice :=
  { source_port := 12345, destination_port := 80, sequence_number := 1000
    acknowledgment_number := 50, window_size := 100, syn := false, ack := true }

/-- A segment passing both guards of `estConn`/`synRcvdConn`:
`ack = 7 ∈ (5, 10]` and `seq = 1000 = rx.nxt`. -/
def goodSeg : TcpHeaderSlice :=
  { source_port := 12345, destination_port := 80, sequence_number := 1000
    acknowledgment_number := 7, window_size := 4096, syn := false, ack := true }

/-- A connection used against the segment-validity guard: `rx.nxt = 10`,
`rx.wnd = 100`, so the receive window is the arc `[10, 109]`. -/
def connC3 : Connection :=
  { estConn with rx := { nxt := 10, wnd := 100, up := false, irs := 0 } }

/-- A segment of length 10 starting at `seq = 5`: its first byte is left
of the window of `connC3` while its last byte `seq+L-1 = 14` is inside. -/
def hdrC3 : TcpHeaderSlice :=
  { source_port := 12345, destination_port := 80, sequence_number := 5
    acknowledgment_number := 7, window_size := 4096, syn := false, ack := true }

/-- A connection with the given send-sequence edges, for the
acceptable-ACK vectors. -/
def connWithTx (una nxt : Nat) : Connection :=
  { estConn with
    tx := { una := una, nxt := nxt, wnd := 100, up := false, wl1 := 0, wl2 := 0, iss := 0 } }

/-- `isOk` of the guard pattern `if b then Ok(()) else Err(e)` is `b`. -/
theorem isOk_ite (b : Bool) (e : IoError) :
    isOk (if b = true then Except.ok () else Except.error e) = b := by
  cases b <;> simp [isOk]

/-- Propositional characterization of `is_between`: on the strict branch
`start < end` it is the plain interval test, otherwise the wrapped
disjunction. -/
theorem is_between_iff (s e v : Nat) :
    is_between s e v = true ↔ (if s < e then s ≤ v ∧ v ≤ e else v ≥ s ∨ v ≤ e) := by
  unfold is_between
  split <;> simp

/-- The left edge of an arc is always inside it: `is_between s e s` holds
for every pair of bounds, so `rx.nxt` itself always passes the final
window check of `check_valid_segment`. -/
theorem is_between_self (s e : Nat) : is_between s e s = true := by
  rw [is_between_iff]
  rcases Nat.lt_or_ge s e with h | h
  · rw [if_pos h]
    exact ⟨Nat.le_refl _, Nat.le_of_lt h⟩
  · rw [if_neg (Nat.not_lt.mpr h)]
    exact Or.inl (Nat.le_refl _)

/-- Claim C2, counterexample: at `start = end = 10` the comparator takes
the wrapped branch and accepts every value, so `is_between 10 10 5` is
`true` although the claim's `start ≤ end` rule (`start ≤ val ≤ end`)
demands `false` there. -/
theorem is_between_equal_bounds_counterexample :
    is_between 10 10 5 = true ∧ (10 : Nat) ≤ 10 ∧ ¬((10 : Nat) ≤ 5 ∧ (5 : Nat) ≤ 10) := by
  decide

/-- Claim C2, amended: the no-wrap branch of `is_between` is taken only
for `start < end` (for `start ≥ end`, including `start = end`, the result
is `val ≥ start ∨ val ≤ end`); the four concrete vectors hold as stated. -/
theorem is_between_characterization :
    (∀ s e v : Nat, s < u32Mod → e < u32Mod → v < u32Mod →
      (is_between s e v = true ↔ if s < e then s ≤ v ∧ v ≤ e else v ≥ s ∨ v ≤ e)) ∧
    is_between 4294967280 5 2 = true ∧ is_between 10 20 15 = true ∧
    is_between 10 20 25 = false ∧ is_between 10 20 5 = false :=
  ⟨fun s e v _ _ _ => is_between_iff s e v, by decide, by decide, by decide, by decide⟩

/-- Witness for `is_between_characterization` at the wraparound vector
`(0xFFFFFFF0, 5, 2)`. -/
theorem is_between_characterization_witness :
    ((4294967280 : Nat) < u32Mod ∧ (5 : Nat) < u32Mod ∧ (2 : Nat) < u32Mod) ∧
    (is_between 4294967280 5 2 = true ↔
      if (4294967280 : Nat) < 5 then (4294967280 : Nat) ≤ 2 ∧ (2 : Nat) ≤ 5
      else (2 : Nat) ≥ 4294967280 ∨ (2 : Nat) ≤ 5) :=
  ⟨⟨by decide, by decide, by decide⟩,
    is_between_characterization.1 4294967280 5 2 (by decide) (by decide) (by decide)⟩

/-- Claim C7: the acceptable-ACK guard accepts exactly when
`is_between(una+1, nxt, ack)` holds; for `una = 5`, `nxt = 10` the
accepted acknowledgment numbers are exactly `{6,...,10}`, and shifting
`una`, `nxt` and `ack` by `2^32 - 7` (wrapping) gives identical results. -/
theorem check_acceptable_ack_spec :
    (∀ (c : Connection) (ackn : Nat),
      isOk (c.check_acceptable_ack ackn) = is_between (wadd c.tx.una 1) c.tx.nxt ackn) ∧
    (∀ a : Nat, 6 ≤ a → a ≤ 10 →
      isOk ((connWithTx 5 10).check_acceptable_ack a) = true) ∧
    isOk ((connWithTx 5 10).check_acceptable_ack 5) = false ∧
    isOk ((connWithTx 5 10).check_acceptable_ack 11) = false ∧
    (∀ a : Nat, 6 ≤ a → a ≤ 10 →
      isOk ((connWithTx (wadd 5 4294967289) (wadd 10 4294967289)).check_acceptable_ack
        (wadd a 4294967289)) = true) ∧
    isOk ((connWithTx (wadd 5 4294967289) (wadd 10 4294967289)).check_acceptable_ack
      (wadd 5 4294967289)) = false ∧
    isOk ((connWithTx (wadd 5 4294967289) (wadd 10 4294967289)).check_acceptable_ack
      (wadd 11 4294967289)) = false := by
  refine ⟨fun c ackn => ?_, fun a h1 h2 => ?_, by decide, by decide,
    fun a h1 h2 => ?_, by decide, by decide⟩
  · unfold Connection.check_acceptable_ack
    exact isOk_ite _ _
  · interval_cases a <;> decide
  · interval_cases a <;> decide

/-- Witness for `check_acceptable_ack_spec` at `ack = 7`. -/
theorem check_acceptable_ack_spec_witness :
    ((6 : Nat) ≤ 7 ∧ (7 : Nat) ≤ 10) ∧
    isOk ((connWithTx 5 10).check_acceptable_ack 7) = true :=
  ⟨⟨by decide, by decide⟩, check_acceptable_ack_spec.2.1 7 (by decide) (by decide)⟩

/-- Claim C3, counterexample: for `rx.nxt = 10`, `rx.wnd = 100` the
segment `seq = 5`, `L = 10` (segment window 4096) is rejected by
`check_valid_segment`, although `seq + L - 1 = 14` lies inside the window,
so the claim's `is_between(rx.nxt, rx.nxt+rx.wnd-1, seq+L-1)` alternative
demands acceptance. -/
theorem check_valid_segment_counterexample :
    isOk (connC3.check_valid_segment hdrC3 10) = false ∧
    hdrC3.window_size ≠ 0 ∧
    is_between connC3.rx.nxt (wsub (wadd connC3.rx.nxt connC3.rx.wnd) 1)
      (wadd hdrC3.sequence_number (10 - 1)) = true := by
  decide

/-- Claim C3, amended: the two zero-window rows test the inbound
segment's advertised window field, not the local `rx.wnd`; acceptance in
the remaining rows is `is_between(rx.nxt, rx.nxt+rx.wnd-1, seq)` alone —
the `seq+L-1` alternative of RFC793 is not checked. -/
theorem check_valid_segment_spec (c : Connection) (hdr : TcpHeaderSlice) (slen : Nat) :
    isOk (c.check_valid_segment hdr slen) = true ↔
      (if slen = 0 ∧ hdr.window_size = 0 then hdr.sequence_number = c.rx.nxt
       else if hdr.window_size = 0 then False
       else is_between c.rx.nxt (wsub (wadd c.rx.nxt c.rx.wnd) 1)
         hdr.sequence_number = true) := by
  unfold Connection.check_valid_segment
  rcases Nat.eq_zero_or_pos slen with hlen | hlen
  · subst hlen
    by_cases hw : hdr.window_size = 0
    · by_cases hseq : hdr.sequence_number = c.rx.nxt
      · simp [hw, hseq, isOk, is_between_self]
      · simp [hw, hseq, isOk]
    · simp [hw, isOk_ite]
  · have hne : slen ≠ 0 := by omega
    by_cases hw : hdr.window_size = 0
    · simp [hne, hw, hlen, isOk]
    · simp [hne, hw, isOk_ite]

/-- Claim C1, counterexample: with identical out-of-range acknowledgment
input, the synchronized `Established` connection replies with nothing and
is left unchanged, while the unsynchronized `SynRcvd` twin emits a RST —
the reverse of the claim's case split. -/
theorem on_packet_guard_failure_counterexample :
    estConn.state.is_sync = true ∧
    isOk (estConn.check_acceptable_ack badAckSeg.acknowledgment_number) = false ∧
    (estConn.on_packet badAckSeg []).sent = [] ∧
    (estConn.on_packet badAckSeg []).conn = estConn ∧
    synRcvdConn.state.is_sync = false ∧
    isOk (synRcvdConn.check_acceptable_ack badAckSeg.acknowledgment_number) = false ∧
    (synRcvdConn.on_packet badAckSeg []).sent ≠ [] ∧
    (synRcvdConn.on_packet badAckSeg []).conn.tcp.rst = true := by
  decide

/-- Claim C1, amended: when a guard check of `on_packet` fails, a RST is
sent exactly when the connection is NOT synchronized
(`state ∈ {Listen, SynSent, SynRcvd}`); a synchronized connection drops
the segment silently, with no reply and no state change.  Either way the
call returns `Ok(0)`. -/
theorem on_packet_guard_failure (c : Connection) (hdr : TcpHeaderSlice) (data : List Nat)
    (hfail : isOk (c.check_acceptable_ack hdr.acknowledgment_number) = false ∨
      (isOk (c.check_acceptable_ack hdr.acknowledgment_number) = true ∧
        isOk (c.check_valid_segment hdr data.length) = false)) :
    (c.state.is_sync = true →
      c.on_packet hdr data = { conn := c, sent := [], out := Outcome.ok 0 }) ∧
    (c.state.is_sync = false →
      c.on_packet hdr data =
        { conn := c.send_rst.conn, sent := [c.send_rst.transmitted]
          out := Outcome.ok 0 } ∧
      c.send_rst.conn.tcp.rst = true) := by
  have hrst : c.send_rst.conn.tcp.rst = true := by
    simp [Connection.send_rst, Connection.send]
  rcases hfail with hbad | ⟨hok, hbad⟩
  · cases hack : c.check_acceptable_ack hdr.acknowledgment_number with
    | ok u => rw [hack] at hbad; simp [isOk] at hbad
    | error e =>
      refine ⟨fun hsync => ?_, fun hsync => ⟨?_, hrst⟩⟩ <;>
        simp [Connection.on_packet, hack, hsync]
  · cases hack : c.check_acceptable_ack hdr.acknowledgment_number with
    | error e => rw [hack] at hok; simp [isOk] at hok
    | ok u =>
      cases hval : c.check_valid_segment hdr data.length with
      | ok u2 => rw [hval] at hbad; simp [isOk] at hbad
      | error e =>
        refine ⟨fun hsync => ?_, fun hsync => ⟨?_, hrst⟩⟩ <;>
          simp [Connection.on_packet, hack, hval, hsync]

/-- Witness for `on_packet_guard_failure`: the unsynchronized twin
connection under the out-of-range acknowledgment number. -/
theorem on_packet_guard_failure_witness :
    (isOk (synRcvdConn.check_acceptable_ack badAckSeg.acknowledgment_number) = false ∨
      (isOk (synRcvdConn.check_acceptable_ack badAckSeg.acknowledgment_number) = true ∧
        isOk (synRcvdConn.check_valid_segment badAckSeg ([] : List Nat).length) = false)) ∧
    ((synRcvdConn.state.is_sync = true →
      synRcvdConn.on_packet badAckSeg [] =
        { conn := synRcvdConn, sent := [], out := Outcome.ok 0 }) ∧
    (synRcvdConn.state.is_sync = false →
      synRcvdConn.on_packet badAckSeg [] =
        { conn := synRcvdConn.send_rst.conn, sent := [synRcvdConn.send_rst.transmitted]
          out := Outcome.ok 0 } ∧
      synRcvdConn.send_rst.conn.tcp.rst = true)) :=
  ⟨Or.inl (by decide),
    on_packet_guard_failure synRcvdConn badAckSeg [] (Or.inl (by decide))⟩

/-- Claim C8: in `SynRcvd`, once both guards pass, a segment without the
ACK flag makes `on_packet` return the hard `ConnectionReset` error
("must get an ack") with nothing sent and no state change, and a segment
with the ACK flag moves the connection to `Established`, consuming no
payload (`Ok(0)`) and sending nothing. -/
theorem on_packet_synrcvd (c : Connection) (hdr : TcpHeaderSlice) (data : List Nat)
    (hstate : c.state = State.SynRcvd)
    (hack : isOk (c.check_acceptable_ack hdr.acknowledgment_number) = true)
    (hval : isOk (c.check_valid_segment hdr data.length) = true) :
    (hdr.ack = false →
      c.on_packet hdr data = { conn := c, sent := [], out := Outcome.errConnReset }) ∧
    (hdr.ack = true →
      c.on_packet hdr data =
        { conn := { c with state := State.Established }, sent := []
          out := Outcome.ok 0 }) := by
  cases hA : c.check_acceptable_ack hdr.acknowledgment_number with
  | error e => rw [hA] at hack; simp [isOk] at hack
  | ok u =>
    cases hV : c.check_valid_segment hdr data.length with
    | error e => rw [hV] at hval; simp [isOk] at hval
    | ok u2 =>
      constructor <;> intro hflag <;>
        simp [Connection.on_packet, hA, hV, hstate, hflag]

/-- Witness for `on_packet_synrcvd`: the `SynRcvd` sample connection and
a guard-passing ACK segment. -/
theorem on_packet_synrcvd_witness :
    (synRcvdConn.state = State.SynRcvd ∧
      isOk (synRcvdConn.check_acceptable_ack goodSeg.acknowledgment_number) = true ∧
      isOk (synRcvdConn.check_valid_segment goodSeg ([] : List Nat).length) = true) ∧
    ((goodSeg.ack = false →
      synRcvdConn.on_packet goodSeg [] =
        { conn := synRcvdConn, sent := [], out := Outcome.errConnReset }) ∧
    (goodSeg.ack = true →
      synRcvdConn.on_packet goodSeg [] =
        { conn := { synRcvdConn with state := State.Established }, sent := []
          out := Outcome.ok 0 })) :=
  ⟨⟨rfl, by decide, by decide⟩,
    on_packet_synrcvd synRcvdConn goodSeg [] rfl (by decide) (by decide)⟩

/-- Claim C9, counterexample: on the synchronized `Established`
connection a segment passing both guards drives the dispatch into the
`todo!()` branch, which panics instead of returning any "unsupported
transition" result. -/
theorem on_packet_todo_counterexample :
    isOk (estConn.check_acceptable_ack goodSeg.acknowledgment_number) = true ∧
    isOk (estConn.check_valid_segment goodSeg ([] : List Nat).length) = true ∧
    (estConn.on_packet goodSeg []).out = Outcome.todoDiverge ∧
    Outcome.isReturn (estConn.on_packet goodSeg []).out = false := by
  decide

/-- Claim C9, amended: for every out-of-scope state the dispatch of
`on_packet` (after both guards pass) hits a `todo!()` branch and panics —
a fatal failure, not an explicit "unsupported transition" return value. -/
theorem on_packet_todo_states (c : Connection) (hdr : TcpHeaderSlice) (data : List Nat)
    (hstate : c.state = State.SynSent ∨ c.state = State.Established ∨
      c.state = State.FinWait1 ∨ c.state = State.FinWait2 ∨
      c.state = State.Closing ∨ c.state = State.TimeWait ∨
      c.state = State.CloseWait ∨ c.state = State.LastAck)
    (hack : isOk (c.check_acceptable_ack hdr.acknowledgment_number) = true)
    (hval : isOk (c.check_valid_segment hdr data.length) = true) :
    (c.on_packet hdr data).out = Outcome.todoDiverge ∧
    Outcome.isReturn (c.on_packet hdr data).out = false := by
  cases hA : c.check_acceptable_ack hdr.acknowledgment_number with
  | error e => rw [hA] at hack; simp [isOk] at hack
  | ok u =>
    cases hV : c.check_valid_segment hdr data.length with
    | error e => rw [hV] at hval; simp [isOk] at hval
    | ok u2 =>
      rcases hstate with h | h | h | h | h | h | h | h <;>
        simp [Connection.on_packet, hA, hV, h, Outcome.isReturn]

/-- Witness for `on_packet_todo_states`: the `Established` sample
connection under a guard-passing segment. -/
theorem on_packet_todo_states_witness :
    ((estConn.state = State.SynSent ∨ estConn.state = State.Established ∨
      estConn.state = State.FinWait1 ∨ estConn.state = State.FinWait2 ∨
      estConn.state = State.Closing ∨ estConn.state = State.TimeWait ∨
      estConn.state = State.CloseWait ∨ estConn.state = State.LastAck) ∧
      isOk (estConn.check_acceptable_ack goodSeg.acknowledgment_number) = true ∧
      isOk (estConn.check_valid_segment goodSeg ([] : List Nat).length) = true) ∧
    ((estConn.on_packet goodSeg []).out = Outcome.todoDiverge ∧
      Outcome.isReturn (estConn.on_packet goodSeg []).out = false) :=
  ⟨⟨Or.inr (Or.inl rfl), by decide, by decide⟩,
    on_packet_todo_states estConn goodSeg [] (Or.inr (Or.inl rfl))
      (by decide) (by decide)⟩

/-- Claim C4, code-bug evaluation: `accept` on `SYN(seq=1000, win=4096)`
produces the claimed `SynRcvd` connection, receive space and SYN+ACK
reply, and the follow-up `ACK(ack=iss+1)` does reach `Established` — but
the returned send space has `tx.nxt = iss+2`, not `iss+1`: `accept`
pre-reserves the SYN's sequence number in `nxt` and `send` then reserves
it a second time for the set SYN flag. -/
theorem accept_handshake_eval :
    (Connection.accept sampleIp sampleSyn).isSome = true ∧
    sampleConn.state = State.SynRcvd ∧
    sampleConn.tx.una = 0 ∧
    sampleConn.tx.iss = 0 ∧
    sampleConn.tx.wnd = 4096 ∧
    sampleConn.rx.irs = 1000 ∧
    sampleConn.rx.nxt = 1001 ∧
    sampleConn.rx.wnd = 4096 ∧
    sampleConn.tcp.syn = true ∧
    sampleConn.tcp.ack = true ∧
    sampleConn.tcp.acknowledgment_number = 1001 ∧
    sampleReply = sampleConn.ip.write ++ sampleConn.tcp.write ∧
    sampleConn.tx.nxt = 2 ∧
    sampleConn.tx.nxt ≠ sampleConn.tx.iss + 1 ∧
    (sampleConn.on_packet sampleAckSeg []).conn.state = State.Established ∧
    (sampleConn.on_packet sampleAckSeg []).out = Outcome.ok 0 := by
  decide

/-- Claim C5, code-bug evaluation: the SYN+ACK reply of `accept` carries
acknowledgment number `rx.nxt = 1001`, window `tx.wnd = 4096`, the SYN
and ACK flags, and no payload (40 header bytes only) — but its sequence
number is `iss + 1 = 1`, not `iss`: `send` overwrites the template's
initial `iss` with the pre-advanced `tx.nxt`. -/
theorem accept_synack_fields_eval :
    (Connection.accept sampleIp sampleSyn).isSome = true ∧
    sampleReply = sampleConn.ip.write ++ sampleConn.tcp.write ∧
    sampleReply.length = 40 ∧
    sampleConn.tcp.syn = true ∧
    sampleConn.tcp.ack = true ∧
    sampleConn.tcp.acknowledgment_number = 1001 ∧
    sampleConn.tcp.window_size = 4096 ∧
    sampleConn.tcp.sequence_number = 1 ∧
    sampleConn.tcp.sequence_number ≠ sampleConn.tx.iss := by
  decide

/-- Claim C6, code-bug evaluation at payload `[0xAB]`: `send` stamps
`tx.nxt`/`rx.nxt` into the header, sets the IPv4 payload length to
`20 + 1`, returns `payload.len()` and advances `tx.nxt` by the payload
length plus one for SYN — but the transmitted bytes are only the 40 bytes
of the two headers (the payload is never serialized) and the checksum is
computed over an empty payload, so the segment the claim describes (its
own header plus payload bytes) does not validate, while the empty-payload
SYN+ACK does. -/
theorem send_payload_eval :
    (sampleConn.send [171]).conn.tcp.sequence_number = sampleConn.tx.nxt ∧
    (sampleConn.send [171]).conn.tcp.acknowledgment_number = sampleConn.rx.nxt ∧
    (sampleConn.send [171]).conn.ip.payload_len = 20 + 1 ∧
    (sampleConn.send [171]).ret = 1 ∧
    (sampleConn.send [171]).conn.tx.nxt = wadd (wadd sampleConn.tx.nxt 1) 1 ∧
    (sampleConn.send [171]).conn.tcp.checksum =
      TcpHeader.calc_checksum_ipv4
        { sampleConn.tcp with
            sequence_number := sampleConn.tx.nxt
            acknowledgment_number := sampleConn.rx.nxt }
        ((sampleConn.send [171]).conn.ip) [] ∧
    (sampleConn.send [171]).transmitted =
      (sampleConn.send [171]).conn.ip.write ++ (sampleConn.send [171]).conn.tcp.write ∧
    (sampleConn.send [171]).transmitted.length = 40 ∧
    onesComplement (tcpPseudo (sampleConn.send [171]).conn.ip (20 + 1) ++
      (sampleConn.send [171]).conn.tcp.write ++ [171]) ≠ 0 ∧
    onesComplement (tcpPseudo sampleConn.ip 20 ++ sampleConn.tcp.write) = 0 := by
  decide

/-- `send` never touches the control flags of the header template. -/
theorem send_tcp_flags (c : Connection) (p : List Nat) :
    (c.send p).conn.tcp.syn = c.tcp.syn ∧ (c.send p).conn.tcp.ack = c.tcp.ack ∧
    (c.send p).conn.tcp.rst = c.tcp.rst ∧ (c.send p).conn.tcp.fin = c.tcp.fin := by
  simp [Connection.send]

/-- With SYN set and FIN clear, `send` advances `tx.nxt` by the payload
length plus one. -/
theorem send_nxt (c : Connection) (p : List Nat)
    (hsyn : c.tcp.syn = true) (hfin : c.tcp.fin = false) :
    (c.send p).conn.tx.nxt = wadd (wadd c.tx.nxt p.length) 1 := by
  simp [Connection.send, hsyn, hfin]

/-- `send_rst` leaves the RST flag set on the header template. -/
theorem send_rst_rst (c : Connection) : c.send_rst.conn.tcp.rst = true := by
  simp [Connection.send_rst, Connection.send]

/-- No single operation clears SYN, ACK or FIN on the header template (it
copies each of them), and none clears a set RST flag. -/
theorem applyOp_flags (c : Connection) (o : Op) :
    (applyOp c o).tcp.syn = c.tcp.syn ∧ (applyOp c o).tcp.ack = c.tcp.ack ∧
    (applyOp c o).tcp.fin = c.tcp.fin ∧
    (c.tcp.rst = true → (applyOp c o).tcp.rst = true) := by
  cases o with
  | opSend p => simp [applyOp, Connection.send]
  | opSendRst => simp [applyOp, Connection.send_rst, Connection.send]
  | opOnPacket hdr data =>
    simp only [applyOp, Connection.on_packet]
    cases c.check_acceptable_ack hdr.acknowledgment_number with
    | error e =>
      by_cases h : c.state.is_sync <;>
        simp [h, Connection.send_rst, Connection.send]
    | ok u =>
      cases c.check_valid_segment hdr data.length with
      | error e =>
        by_cases h : c.state.is_sync <;>
          simp [h, Connection.send_rst, Connection.send]
      | ok u2 =>
        cases c.state <;> by_cases hb : hdr.ack <;> simp [hb]

/-- Over any sequence of operations the SYN, ACK and FIN flags of the
template are copied unchanged. -/
theorem applyOps_syn_ack_fin (ops : List Op) : ∀ c : Connection,
    (applyOps c ops).tcp.syn = c.tcp.syn ∧
    (applyOps c ops).tcp.ack = c.tcp.ack ∧
    (applyOps c ops).tcp.fin = c.tcp.fin := by
  induction ops with
  | nil => intro c; simp [applyOps]
  | cons o rest ihn =>
    intro c
    have h1 := applyOp_flags c o
    have h2 := ihn (applyOp c o)
    simp only [applyOps, List.foldl] at h2 ⊢
    exact ⟨h2.1.trans h1.1, (h2.2.1).trans h1.2.1, (h2.2.2).trans h1.2.2.1⟩

/-- A set RST flag survives any sequence of operations. -/
theorem applyOps_rst (ops : List Op) : ∀ c : Connection,
    c.tcp.rst = true → (applyOps c ops).tcp.rst = true := by
  induction ops with
  | nil => intro c h; simpa [applyOps] using h
  | cons o rest ihn =>
    intro c h
    have h1 := (applyOp_flags c o).2.2.2 h
    simpa only [applyOps, List.foldl] using ihn (applyOp c o) h1

/-- A connection returned by `accept` has SYN and ACK set and FIN clear
on its outbound header template. -/
theorem accept_template_flags (ihs : Ipv4HeaderSlice) (ths : TcpHeaderSlice)
    (c0 : Connection) (reply : List Nat)
    (hacc : Connection.accept ihs ths = some (c0, reply)) :
    c0.tcp.syn = true ∧ c0.tcp.ack = true ∧ c0.tcp.fin = false := by
  unfold Connection.accept at hacc
  by_cases hs : ths.syn
  · simp only [hs, Bool.not_true, Bool.false_eq_true, if_false, Option.some.injEq,
      Prod.mk.injEq] at hacc
    obtain ⟨h1, h2⟩ := hacc
    subst h1
    simp [Connection.send, TcpHeader.new]
  · simp [hs] at hacc

/-- Claim C10: control flags on the reusable outbound header template are
never cleared.  After `accept`, SYN and ACK stay set (and FIN stays
clear) across every operation sequence, so each later `send` transmits a
SYN+ACK-flagged segment and advances `tx.nxt` by the payload length plus
one; and after any `send_rst`, RST stays set on the template and on every
later outgoing segment. -/
theorem flags_never_cleared (ihs : Ipv4HeaderSlice) (ths : TcpHeaderSlice)
    (c0 : Connection) (reply : List Nat)
    (hacc : Connection.accept ihs ths = some (c0, reply)) :
    ∀ ops : List Op,
      (applyOps c0 ops).tcp.syn = true ∧
      (applyOps c0 ops).tcp.ack = true ∧
      (applyOps c0 ops).tcp.fin = false ∧
      (∀ p : List Nat,
        ((applyOps c0 ops).send p).conn.tcp.syn = true ∧
        ((applyOps c0 ops).send p).conn.tcp.ack = true ∧
        ((applyOps c0 ops).send p).conn.tx.nxt =
          wadd (wadd (applyOps c0 ops).tx.nxt p.length) 1) ∧
      (∀ ops2 : List Op,
        (applyOps (applyOps c0 ops).send_rst.conn ops2).tcp.rst = true ∧
        ∀ p : List Nat,
          ((applyOps (applyOps c0 ops).send_rst.conn ops2).send p).conn.tcp.rst
            = true) := by
  intro ops
  obtain ⟨hsyn0, hack0, hfin0⟩ := accept_template_flags ihs ths c0 reply hacc
  obtain ⟨hsyn, hackf, hfin⟩ := applyOps_syn_ack_fin ops c0
  rw [hsyn0] at hsyn
  rw [hack0] at hackf
  rw [hfin0] at hfin
  refine ⟨hsyn, hackf, hfin, fun p => ?_, fun ops2 => ?_⟩
  · obtain ⟨f1, f2, _, _⟩ := send_tcp_flags (applyOps c0 ops) p
    exact ⟨f1.trans hsyn, f2.trans hackf, send_nxt _ p hsyn hfin⟩
  · have hr := applyOps_rst ops2 _ (send_rst_rst (applyOps c0 ops))
    refine ⟨hr, fun p => ?_⟩
    obtain ⟨_, _, f3, _⟩ := send_tcp_flags (applyOps (applyOps c0 ops).send_rst.conn ops2) p
    exact f3.trans hr

/-- Witness for `flags_never_cleared`: the `accept` of the sample SYN,
with the empty operation sequence. -/
theorem flags_never_cleared_witness :
    Connection.accept sampleIp sampleSyn = some (sampleConn, sampleReply) ∧
    ((applyOps sampleConn []).tcp.syn = true ∧
      (applyOps sampleConn []).tcp.ack = true ∧
      (applyOps sampleConn []).tcp.fin = false ∧
      (∀ p : List Nat,
        ((applyOps sampleConn []).send p).conn.tcp.syn = true ∧
        ((applyOps sampleConn []).send p).conn.tcp.ack = true ∧
        ((applyOps sampleConn []).send p).conn.tx.nxt =
          wadd (wadd (applyOps sampleConn []).tx.nxt p.length) 1) ∧
      (∀ ops2 : List Op,
        (applyOps (applyOps sampleConn []).send_rst.conn ops2).tcp.rst = true ∧
        ∀ p : List Nat,
          ((applyOps (applyOps sampleConn []).send_rst.conn ops2).send p).conn.tcp.rst
            = true)) :=
  ⟨by decide,
    flags_never_cleared sampleIp sampleSyn sampleConn sampleReply (by decide) []⟩
